import Mathlib

/-!
Shallow embedding of the sager-drone-task reconciliation core:
the identifier admission predicate `isAllowed`, the socket "message"
handler (validation, sentinel identifier, freeze gate) from
`src/sager-drone/src/App.js`, and the zustand store actions
`addOrUpdateDrone` / `setSelectedDrone` from the store module.

JavaScript values are modelled explicitly: strings as `List Char`,
numbers as `JsNum` (a finite rational payload or NaN/±Infinity; the
core performs no arithmetic on coordinates, it only passes them
through and tests finiteness), `undefined`/absent fields as
`Option.none`.
-/

/-- JS strings, modelled as lists of characters. -/
abbrev Str := List Char

/-- A JS number: either a finite value (carried as a rational, which is
exact for every literal the core ever passes through — the core does no
arithmetic on coordinates) or one of the non-finite doubles. -/
inductive JsNum where
  | finite (q : ℚ)
  | nan
  | posInf
  | negInf
deriving DecidableEq, Repr

/-- Models `Number.isFinite` on a JS number. -/
def jsFinite : JsNum → Bool
  | JsNum.finite _ => true
  | _ => false

/-- Models `Number.isFinite` applied to a possibly-undefined value
(`Number.isFinite(undefined) = false`). -/
def jsFiniteO : Option JsNum → Bool
  | some n => jsFinite n
  | none => false

/-- A JS value as far as the admission predicate can observe it:
a string, a number, a boolean, `null` or `undefined`. -/
inductive JsVal where
  | jsStr (s : Str)
  | jsNum (n : JsNum)
  | jsBool (b : Bool)
  | jsNull
  | jsUndefined
deriving DecidableEq

/-- The constant `ALLOWED_PREFIX = "SD-"` from App.js. -/
def allowedPre : Str := ['S', 'D', '-']

/-- The constant `ALLOWED_CHAR = "B"` from App.js. -/
def allowedChar : Char := 'B'

/-- The admission predicate `isAllowed` of App.js restricted to string
inputs: `!id` (empty string is falsy), `id.startsWith("SD-")`,
`id[3] === "B"` (indexing past the end yields `undefined`, which is
never equal to `"B"`). -/
def isAllowedStr (s : Str) : Bool :=
  if s = [] then false
  else if allowedPre.isPrefixOf s then s.get? 3 == some allowedChar
  else false

/-- The predicate `isAllowed` of App.js on an arbitrary JS value: `!id` and
`typeof id !== "string"` reject every non-string (and the empty
string); otherwise defer to the string test. -/
def isAllowed : JsVal → Bool
  | JsVal.jsStr s => isAllowedStr s
  | _ => false

/-- The sentinel identifier `"SD-UNK"` used when a message carries no
usable registration. -/
def unkId : Str := ['S', 'D', '-', 'U', 'N', 'K']

/-- The geometry type literal `"Point"`. -/
def pointLit : Str := ['P', 'o', 'i', 'n', 't']

section AssocMaps

variable {V : Type}

/-- Lookup in a string-keyed association list; models both reading a
JS object property (`state.drones[id]`) and `Map.prototype.get`. -/
def getKey : List (Str × V) → Str → Option V
  | [], _ => none
  | (k, v) :: rest, k0 => if k = k0 then some v else getKey rest k0

/-- Insert-or-replace; models both `{...obj, [id]: v}` on objects built
this way (replace in place if the key exists, else append) and
`Map.prototype.set`. -/
def setKey : List (Str × V) → Str → V → List (Str × V)
  | [], k0, v0 => [(k0, v0)]
  | (k, v) :: rest, k0, v0 =>
      if k = k0 then (k0, v0) :: rest else (k, v) :: setKey rest k0 v0

/-- Key removal; models `Map.prototype.delete`. -/
def delKey : List (Str × V) → Str → List (Str × V)
  | [], _ => []
  | (k, v) :: rest, k0 =>
      if k = k0 then delKey rest k0 else (k, v) :: delKey rest k0

end AssocMaps

/-- A FreezeLock: `{lon, lat, yaw}` captured in `frozenPosRef` for a
restricted identifier. -/
structure Lock where
  lon : JsNum
  lat : JsNum
  yaw : JsNum
deriving DecidableEq, Repr

/-- The argument object the message handler passes to
`addOrUpdateDrone`: it always carries all nine keys, with
possibly-`undefined` values for the optional ones. -/
structure DroneData where
  id : Str
  lon : JsNum
  lat : JsNum
  yaw : JsNum
  altitude : Option JsNum
  registration : Option Str
  name : Option Str
  pilot : Option Str
  organization : Option Str
deriving DecidableEq

/-- A stored drone record: the nine handler fields plus the computed
`path` and `firstSeen` (every record in `state.drones` has exactly this
shape, since it is only ever written by `addOrUpdateDrone`). -/
structure VehicleState where
  id : Str
  lon : JsNum
  lat : JsNum
  yaw : JsNum
  altitude : Option JsNum
  registration : Option Str
  name : Option Str
  pilot : Option Str
  organization : Option Str
  path : List (JsNum × JsNum)
  firstSeen : Nat
deriving DecidableEq

/-- GeoJSON geometry of a telemetry feature; `coordinates` may be
absent (falsy), and destructuring a short array yields `undefined`. -/
structure Geometry where
  type : Str
  coordinates : Option (List JsNum)
deriving DecidableEq

/-- The shape of `feat.properties`; each field may be absent. -/
structure Props where
  registration : Option Str
  yaw : Option JsNum
  altitude : Option JsNum
  Name : Option Str
  pilot : Option Str
  organization : Option Str
deriving DecidableEq

/-- One element of `fc.features`. -/
structure Feature where
  geometry : Option Geometry
  properties : Option Props
deriving DecidableEq

/-- A socket "message" payload; a missing or empty `features` array is
modelled by the empty list (in both cases `fc?.features?.[0]` is
`undefined`). -/
structure Msg where
  features : List Feature
deriving DecidableEq

/-- The mutable state the handler touches: the `frozenPosRef` map, the
zustand `drones` object and the `selectedDroneId` cursor. -/
structure SysState where
  frozen : List (Str × Lock)
  drones : List (Str × VehicleState)
  selectedDroneId : Option Str
deriving DecidableEq

/-- Initial store state: `drones: {}`, `selectedDroneId: null`, empty
freeze map. -/
def initState : SysState :=
  { frozen := [], drones := [], selectedDroneId := none }

/-- The empty object, the fallback for `feat.properties || {}`. -/
def emptyProps : Props := ⟨none, none, none, none, none, none⟩

/-- Models `p.registration || "SD-UNK"`: a falsy registration (absent, null,
or the empty string) falls back to the sentinel identifier. -/
def resolveId : Option Str → Str
  | some r => if r = [] then unkId else r
  | none => unkId

/-- The action `addOrUpdateDrone` from the zustand store. The JS merge
`{...existing, ...droneData, path, firstSeen}` is a full overwrite of
the nine handler fields (the handler always passes all nine keys, so
even `undefined` values are own properties and overwrite); `path` is
rebuilt by appending the event position (the `existing.path ?` test is
presence of the record, since arrays are truthy); `firstSeen` follows
JS truthiness of `existing.firstSeen || Date.now()` (absent or `0`
falls back to the current time). -/
def addOrUpdateDrone (now : Nat) (droneData : DroneData)
    (drones : List (Str × VehicleState)) : List (Str × VehicleState) :=
  let existing := getKey drones droneData.id
  let path : List (JsNum × JsNum) :=
    match existing with
    | some e => e.path ++ [(droneData.lon, droneData.lat)]
    | none => [(droneData.lon, droneData.lat)]
  let firstSeen : Nat :=
    match existing with
    | some e => if e.firstSeen = 0 then now else e.firstSeen
    | none => now
  setKey drones droneData.id
    { id := droneData.id, lon := droneData.lon, lat := droneData.lat,
      yaw := droneData.yaw, altitude := droneData.altitude,
      registration := droneData.registration, name := droneData.name,
      pilot := droneData.pilot, organization := droneData.organization,
      path := path, firstSeen := firstSeen }

/-- The action `setSelectedDrone` from the zustand store: a shallow `set` that
replaces only the `selectedDroneId` key. -/
def setSelectedDrone (id : Option Str) (st : SysState) : SysState :=
  { st with selectedDroneId := id }

/-- The `socket.on("message")` handler of App.js: take the first
feature, require `Point` geometry, destructure coordinates, default
the properties object, resolve the identifier and yaw, require finite
coordinates, then either clear the freeze lock and store live values
(admitted) or capture/reuse the freeze lock and store its values
(restricted). -/
def processMessage (now : Nat) (fc : Msg) (st : SysState) : SysState :=
  match fc.features.head? with
  | none => st
  | some feat =>
    match feat.geometry with
    | none => st
    | some g =>
      if g.type ≠ pointLit then st
      else
        match (g.coordinates.getD []).get? 0, (g.coordinates.getD []).get? 1 with
        | some lon, some lat =>
          if jsFinite lon && jsFinite lat then
            let p := feat.properties.getD emptyProps
            let id := resolveId p.registration
            let yaw := p.yaw.getD (JsNum.finite 0)
            if !(isAllowedStr id) then
              let lock := (getKey st.frozen id).getD ⟨lon, lat, yaw⟩
              { st with
                frozen := if (getKey st.frozen id).isSome then st.frozen
                          else setKey st.frozen id ⟨lon, lat, yaw⟩,
                drones := addOrUpdateDrone now
                  ⟨id, lock.lon, lock.lat, lock.yaw, p.altitude,
                   p.registration, p.Name, p.pilot, p.organization⟩ st.drones }
            else
              { st with
                frozen := delKey st.frozen id,
                drones := addOrUpdateDrone now
                  ⟨id, lon, lat, yaw, p.altitude, p.registration, p.Name,
                   p.pilot, p.organization⟩ st.drones }
          else st
        | _, _ => st

/-- A well-formed telemetry message as the backend emits it: one
`Point` feature with a coordinate pair, a registration, a yaw and an
altitude (the remaining metadata absent). -/
def mkMsg (reg : Option Str) (lon lat : JsNum) (yawv alt : Option JsNum) : Msg :=
  { features := [{ geometry := some { type := pointLit, coordinates := some [lon, lat] },
                   properties := some { registration := reg, yaw := yawv, altitude := alt,
                                        Name := none, pilot := none,
                                        organization := none } }] }

/-- The rejection conditions of the handler, as the spec lists them:
missing first feature, missing geometry, geometry type other than
`"Point"`, or a missing/non-finite longitude or latitude. -/
def malformed (fc : Msg) : Bool :=
  match fc.features.head? with
  | none => true
  | some feat =>
    match feat.geometry with
    | none => true
    | some g =>
      if g.type ≠ pointLit then true
      else !(jsFiniteO ((g.coordinates.getD []).get? 0) &&
             jsFiniteO ((g.coordinates.getD []).get? 1))

/-- Per-event input data for a run of accepted events for one
registration. -/
structure EvIn where
  time : Nat
  lon : ℚ
  lat : ℚ
  yaw : Option JsNum
  altitude : Option JsNum

/-- Deliver one well-formed event for registration `reg` to the
handler. -/
def stepEv (reg : Option Str) (st : SysState) (e : EvIn) : SysState :=
  processMessage e.time
    (mkMsg reg (JsNum.finite e.lon) (JsNum.finite e.lat) e.yaw e.altitude) st

/-- Deliver a list of well-formed events in order. -/
def runEvents (reg : Option Str) (evs : List EvIn) (st : SysState) : SysState :=
  evs.foldl (stepEv reg) st

/-- The stored path of an identifier (empty when it has no record). -/
def pathOf (st : SysState) (i : Str) : List (JsNum × JsNum) :=
  match getKey st.drones i with
  | some v => v.path
  | none => []

/-- A registration value that is falsy in JS: absent or the empty
string. -/
def falsyReg (r : Option Str) : Prop := r = none ∨ r = some []

/-- States reachable from the initial store by delivering messages and
selecting drones. -/
inductive Reachable : SysState → Prop
  | init : Reachable initState
  | msg (now : Nat) (fc : Msg) (s : SysState) :
      Reachable s → Reachable (processMessage now fc s)
  | select (o : Option Str) (s : SysState) :
      Reachable s → Reachable (setSelectedDrone o s)

/-- The admitted identifier `"SD-B01"`, used in concrete witnesses. -/
def sdb01 : Str := ['S', 'D', '-', 'B', '0', '1']

/-- The restricted identifier `"SD-A02"`, used in concrete witnesses. -/
def sda02 : Str := ['S', 'D', '-', 'A', '0', '2']

/-- A malformed message with a NaN longitude (spec Scenario C). -/
def badMsg : Msg :=
  { features := [{ geometry := some { type := pointLit,
                                      coordinates := some [JsNum.nan, JsNum.finite 5] },
                   properties := some { registration := some sdb01, yaw := none,
                                        altitude := none, Name := none, pilot := none,
                                        organization := none } }] }

/-- The state after one admitted event, used as a concrete reachable
state in the C10 witness. -/
def c10State : SysState :=
  processMessage 5 (mkMsg (some sdb01) (JsNum.finite 3) (JsNum.finite 4) none none)
    initState

/-- The record that event stores, used in the C10 witness. -/
def c10Record : VehicleState :=
  { id := sdb01, lon := JsNum.finite 3, lat := JsNum.finite 4,
    yaw := JsNum.finite 0, altitude := none, registration := some sdb01,
    name := none, pilot := none, organization := none,
    path := [(JsNum.finite 3, JsNum.finite 4)], firstSeen := 5 }

section MapLemmas

variable {V : Type}

theorem getKey_setKey_self (m : List (Str × V)) (k : Str) (v : V) :
    getKey (setKey m k v) k = some v := by
  induction m with
  | nil => simp [setKey, getKey]
  | cons p rest ih =>
      obtain ⟨k1, v1⟩ := p
      by_cases h : k1 = k <;> simp [setKey, getKey, h, ih]

theorem getKey_setKey_ne (m : List (Str × V)) (k k' : Str) (v : V)
    (h : k' ≠ k) : getKey (setKey m k v) k' = getKey m k' := by
  induction m with
  | nil => simp [setKey, getKey, Ne.symm h]
  | cons p rest ih =>
      obtain ⟨k1, v1⟩ := p
      by_cases h1 : k1 = k
      · subst h1
        simp [setKey, getKey, Ne.symm h]
      · simp [setKey, getKey, h1, ih]

theorem getKey_delKey_self (m : List (Str × V)) (k : Str) :
    getKey (delKey m k) k = none := by
  induction m with
  | nil => simp [delKey, getKey]
  | cons p rest ih =>
      obtain ⟨k1, v1⟩ := p
      by_cases h : k1 = k <;> simp [delKey, getKey, h, ih]

theorem getKey_delKey_ne (m : List (Str × V)) (k k' : Str)
    (h : k' ≠ k) : getKey (delKey m k) k' = getKey m k' := by
  induction m with
  | nil => simp [delKey, getKey]
  | cons p rest ih =>
      obtain ⟨k1, v1⟩ := p
      by_cases h1 : k1 = k
      · subst h1
        simp [delKey, getKey, Ne.symm h, ih]
      · simp [delKey, getKey, h1, ih]

theorem getKey_setKey_cases (m : List (Str × V)) (k k' : Str) (v v' : V)
    (h : getKey (setKey m k v) k' = some v') :
    (k' = k ∧ v' = v) ∨ getKey m k' = some v' := by
  by_cases hk : k' = k
  · subst hk
    rw [getKey_setKey_self] at h
    exact Or.inl ⟨rfl, (Option.some.injEq _ _ ▸ h).symm⟩
  · rw [getKey_setKey_ne m k k' v hk] at h
    exact Or.inr h

end MapLemmas

/-- C4 helper: the admission test only looks at the first four
characters of the identifier. -/
theorem isAllowedStr_take (s : Str) :
    isAllowedStr s = isAllowedStr (s.take 4) := by
  rcases s with _ | ⟨a, _ | ⟨b, _ | ⟨c, _ | ⟨d, r⟩⟩⟩⟩ <;>
    simp [isAllowedStr, allowedPre, List.isPrefixOf, List.get?]

theorem addOrUpdateDrone_getKey_self (now : Nat) (d : DroneData)
    (m : List (Str × VehicleState)) :
    getKey (addOrUpdateDrone now d m) d.id = some
      { id := d.id, lon := d.lon, lat := d.lat, yaw := d.yaw,
        altitude := d.altitude, registration := d.registration,
        name := d.name, pilot := d.pilot, organization := d.organization,
        path := (match getKey m d.id with
                 | some e => e.path ++ [(d.lon, d.lat)]
                 | none => [(d.lon, d.lat)]),
        firstSeen := (match getKey m d.id with
                      | some e => if e.firstSeen = 0 then now else e.firstSeen
                      | none => now) } := by
  simp [addOrUpdateDrone, getKey_setKey_self]

theorem addOrUpdateDrone_getKey_ne (now : Nat) (d : DroneData)
    (m : List (Str × VehicleState)) (k : Str) (h : k ≠ d.id) :
    getKey (addOrUpdateDrone now d m) k = getKey m k := by
  simp [addOrUpdateDrone, getKey_setKey_ne _ _ _ _ h]

/-- Variant of the self-lookup lemma with the argument record spelled
out fieldwise, to match goals after projection reduction. -/
theorem addOrUpdateDrone_getKey_self' (now : Nat) (i : Str)
    (lo la ya : JsNum) (al : Option JsNum) (rg nm pl og : Option Str)
    (m : List (Str × VehicleState)) :
    getKey (addOrUpdateDrone now ⟨i, lo, la, ya, al, rg, nm, pl, og⟩ m) i = some
      { id := i, lon := lo, lat := la, yaw := ya, altitude := al,
        registration := rg, name := nm, pilot := pl, organization := og,
        path := (match getKey m i with
                 | some e => e.path ++ [(lo, la)]
                 | none => [(lo, la)]),
        firstSeen := (match getKey m i with
                      | some e => if e.firstSeen = 0 then now else e.firstSeen
                      | none => now) } :=
  addOrUpdateDrone_getKey_self now ⟨i, lo, la, ya, al, rg, nm, pl, og⟩ m

/-- Variant of the other-key lemma in the same fieldwise form. -/
theorem addOrUpdateDrone_getKey_ne' (now : Nat) (i : Str)
    (lo la ya : JsNum) (al : Option JsNum) (rg nm pl og : Option Str)
    (m : List (Str × VehicleState)) (k : Str) (h : k ≠ i) :
    getKey (addOrUpdateDrone now ⟨i, lo, la, ya, al, rg, nm, pl, og⟩ m) k =
      getKey m k :=
  addOrUpdateDrone_getKey_ne now ⟨i, lo, la, ya, al, rg, nm, pl, og⟩ m k h

/-- One accepted event through the handler, characterised by branch. -/
theorem processMessage_mkMsg (now : Nat) (reg : Option Str) (lq aq : ℚ)
    (yawv alt : Option JsNum) (st : SysState) :
    processMessage now (mkMsg reg (JsNum.finite lq) (JsNum.finite aq) yawv alt) st =
      if isAllowedStr (resolveId reg) then
        { st with
          frozen := delKey st.frozen (resolveId reg),
          drones := addOrUpdateDrone now
            ⟨resolveId reg, JsNum.finite lq, JsNum.finite aq,
             yawv.getD (JsNum.finite 0), alt, reg, none, none, none⟩ st.drones }
      else
        { st with
          frozen := if (getKey st.frozen (resolveId reg)).isSome then st.frozen
                    else setKey st.frozen (resolveId reg)
                      ⟨JsNum.finite lq, JsNum.finite aq, yawv.getD (JsNum.finite 0)⟩,
          drones := addOrUpdateDrone now
            ⟨resolveId reg,
             ((getKey st.frozen (resolveId reg)).getD
               ⟨JsNum.finite lq, JsNum.finite aq, yawv.getD (JsNum.finite 0)⟩).lon,
             ((getKey st.frozen (resolveId reg)).getD
               ⟨JsNum.finite lq, JsNum.finite aq, yawv.getD (JsNum.finite 0)⟩).lat,
             ((getKey st.frozen (resolveId reg)).getD
               ⟨JsNum.finite lq, JsNum.finite aq, yawv.getD (JsNum.finite 0)⟩).yaw,
             alt, reg, none, none, none⟩ st.drones } := by
  cases h : isAllowedStr (resolveId reg) <;>
    simp [processMessage, mkMsg, List.get?, jsFinite, h, emptyProps]

/-- C4: `isAllowed` returns true exactly on strings that start with
`"SD-"` whose character at index 3 is `'B'`; it returns false (without
erroring) on every non-string, on the empty string, on `null` and
`undefined`, and on strings shorter than four characters; and no
character past index 3 affects the result. -/
theorem C4_isAllowed_characterisation :
    (∀ s : Str, isAllowed (JsVal.jsStr s) = true ↔
      (allowedPre.isPrefixOf s ∧ s.get? 3 = some allowedChar)) ∧
    (∀ v : JsVal, (∀ s : Str, v ≠ JsVal.jsStr s) → isAllowed v = false) ∧
    isAllowed (JsVal.jsStr []) = false ∧
    isAllowed JsVal.jsNull = false ∧
    isAllowed JsVal.jsUndefined = false ∧
    (∀ s : Str, s.length < 4 → isAllowed (JsVal.jsStr s) = false) ∧
    (∀ s t : Str, s.take 4 = t.take 4 →
      isAllowed (JsVal.jsStr s) = isAllowed (JsVal.jsStr t)) := by
  refine ⟨?_, ?_, ?_, ?_, ?_, ?_, ?_⟩
  · intro s
    constructor
    · intro h
      by_cases he : s = []
      · subst he; simp [isAllowed, isAllowedStr] at h
      · by_cases hp : allowedPre.isPrefixOf s
        · refine ⟨hp, ?_⟩
          simpa [isAllowed, isAllowedStr, he, hp] using h
        · simp [isAllowed, isAllowedStr, he, hp] at h
    · rintro ⟨hp, hc⟩
      have he : s ≠ [] := by
        rintro rfl
        simp [allowedPre, List.isPrefixOf] at hp
      rw [List.get?_eq_getElem?] at hc
      simp [isAllowed, isAllowedStr, he, hp, hc]
  · intro v hv
    cases v with
    | jsStr s => exact absurd rfl (hv s)
    | jsNum n => rfl
    | jsBool b => rfl
    | jsNull => rfl
    | jsUndefined => rfl
  · rfl
  · rfl
  · rfl
  · intro s hlen
    rcases s with _ | ⟨a, _ | ⟨b, _ | ⟨c, _ | ⟨d, r⟩⟩⟩⟩
    · rfl
    · simp [isAllowed, isAllowedStr, List.get?]
    · simp [isAllowed, isAllowedStr, List.get?]
    · simp [isAllowed, isAllowedStr, List.get?]
    · simp at hlen; omega
  · intro s t h
    show isAllowedStr s = isAllowedStr t
    rw [isAllowedStr_take s, isAllowedStr_take t, h]

/-- C4 witness: concrete evaluations through the characterisation. -/
theorem C4_isAllowed_characterisation_witness :
    isAllowed (JsVal.jsStr ['S', 'D', '-', 'B', '1']) = true ∧
    isAllowed JsVal.jsNull = false ∧
    isAllowed (JsVal.jsStr ['S', 'D']) = false :=
  ⟨(C4_isAllowed_characterisation.1 ['S', 'D', '-', 'B', '1']).mpr
      (by constructor <;> decide),
   C4_isAllowed_characterisation.2.2.2.1,
   C4_isAllowed_characterisation.2.2.2.2.2.1 ['S', 'D'] (by decide)⟩

/-- C5: a malformed telemetry message (missing first feature, missing
geometry, geometry type other than `"Point"`, missing coordinates, or a
non-finite longitude or latitude) changes nothing: the drone map, the
freeze map and the selection are all untouched, and no error is raised
(the handler is a total function returning the old state). -/
theorem C5_malformed_noop (now : Nat) (fc : Msg) (st : SysState)
    (h : malformed fc = true) : processMessage now fc st = st := by
  obtain ⟨features⟩ := fc
  cases features with
  | nil => rfl
  | cons feat rest =>
    obtain ⟨geo, props⟩ := feat
    cases geo with
    | none => rfl
    | some g =>
      obtain ⟨gt, coords⟩ := g
      unfold malformed at h
      unfold processMessage
      simp only [List.head?_cons] at h ⊢
      by_cases ht : gt = pointLit
      · subst ht
        rw [if_neg (by simp)] at h
        rw [if_neg (by simp)]
        cases h0 : (coords.getD []).get? 0 with
        | none => simp
        | some lon =>
          cases h1 : (coords.getD []).get? 1 with
          | none => simp
          | some lat =>
            rw [h0, h1] at h
            simp only [jsFiniteO] at h
            have hfin : (jsFinite lon && jsFinite lat) = false := by
              cases hx : (jsFinite lon && jsFinite lat)
              · rfl
              · rw [hx] at h; exact absurd h (by decide)
            simp [hfin]
      · rw [if_pos ht]

/-- C5 witness: Scenario C — a NaN longitude leaves the initial state
untouched. -/
theorem C5_malformed_noop_witness :
    malformed badMsg = true ∧ processMessage 7 badMsg initState = initState :=
  ⟨by decide, C5_malformed_noop 7 badMsg initState (by decide)⟩

/-- C6: an accepted event whose identifier is classified admitted
deletes that identifier's FreezeLock (so none exists afterwards) and
stores the live event position and yaw. -/
theorem C6_admitted_clears_lock (now : Nat) (reg : Option Str)
    (lq aq : ℚ) (y : JsNum) (alt : Option JsNum) (st : SysState)
    (hadm : isAllowedStr (resolveId reg) = true) :
    getKey (processMessage now (mkMsg reg (JsNum.finite lq) (JsNum.finite aq)
        (some y) alt) st).frozen (resolveId reg) = none ∧
    ∃ v, getKey (processMessage now (mkMsg reg (JsNum.finite lq) (JsNum.finite aq)
        (some y) alt) st).drones (resolveId reg) = some v ∧
      v.lon = JsNum.finite lq ∧ v.lat = JsNum.finite aq ∧ v.yaw = y := by
  rw [processMessage_mkMsg, if_pos hadm]
  constructor
  · exact getKey_delKey_self st.frozen (resolveId reg)
  · exact ⟨_, addOrUpdateDrone_getKey_self' now (resolveId reg) (JsNum.finite lq)
      (JsNum.finite aq) ((some y).getD (JsNum.finite 0)) alt reg none none none
      st.drones, rfl, rfl, rfl⟩

/-- C6 witness: an admitted event at concrete values. -/
theorem C6_admitted_clears_lock_witness :
    getKey (processMessage 3 (mkMsg (some sdb01) (JsNum.finite 10) (JsNum.finite 20)
        (some (JsNum.finite 90)) none) initState).frozen (resolveId (some sdb01)) = none ∧
    ∃ v, getKey (processMessage 3 (mkMsg (some sdb01) (JsNum.finite 10) (JsNum.finite 20)
        (some (JsNum.finite 90)) none) initState).drones (resolveId (some sdb01)) = some v ∧
      v.lon = JsNum.finite 10 ∧ v.lat = JsNum.finite 20 ∧ v.yaw = JsNum.finite 90 :=
  C6_admitted_clears_lock 3 (some sdb01) 10 20 (JsNum.finite 90) none initState (by decide)

/-- Two accepted events resolving to the same fresh restricted
identifier: the stored position/yaw and both path entries are the
first event's values. -/
theorem restricted_fresh_two_events (reg1 reg2 : Option Str) (i : Str)
    (hi1 : resolveId reg1 = i) (hi2 : resolveId reg2 = i)
    (hres : isAllowedStr i = false) (t1 t2 : Nat) (l1 a1 l2 a2 : ℚ)
    (y1 y2 : JsNum) (alt1 alt2 : Option JsNum) (s0 : SysState)
    (hlock : getKey s0.frozen i = none) (hdr : getKey s0.drones i = none) :
    ∃ v, getKey (processMessage t2 (mkMsg reg2 (JsNum.finite l2) (JsNum.finite a2)
          (some y2) alt2)
        (processMessage t1 (mkMsg reg1 (JsNum.finite l1) (JsNum.finite a1)
          (some y1) alt1) s0)).drones i = some v ∧
      v.id = i ∧
      v.lon = JsNum.finite l1 ∧ v.lat = JsNum.finite a1 ∧ v.yaw = y1 ∧
      v.altitude = alt2 ∧
      v.path = [(JsNum.finite l1, JsNum.finite a1),
                (JsNum.finite l1, JsNum.finite a1)] := by
  have h1 : processMessage t1 (mkMsg reg1 (JsNum.finite l1) (JsNum.finite a1)
      (some y1) alt1) s0 =
      { s0 with
        frozen := setKey s0.frozen i ⟨JsNum.finite l1, JsNum.finite a1, y1⟩,
        drones := addOrUpdateDrone t1 ⟨i, JsNum.finite l1, JsNum.finite a1, y1,
          alt1, reg1, none, none, none⟩ s0.drones } := by
    rw [processMessage_mkMsg, hi1, if_neg (by simp [hres])]
    simp [hlock]
  have hd1 : getKey (addOrUpdateDrone t1 ⟨i, JsNum.finite l1, JsNum.finite a1, y1,
      alt1, reg1, none, none, none⟩ s0.drones) i =
      some ⟨i, JsNum.finite l1, JsNum.finite a1, y1, alt1, reg1, none, none, none,
        [(JsNum.finite l1, JsNum.finite a1)], t1⟩ := by
    rw [addOrUpdateDrone_getKey_self']
    simp [hdr]
  have h2 : processMessage t2 (mkMsg reg2 (JsNum.finite l2) (JsNum.finite a2)
      (some y2) alt2)
      ({ s0 with
         frozen := setKey s0.frozen i ⟨JsNum.finite l1, JsNum.finite a1, y1⟩,
         drones := addOrUpdateDrone t1 ⟨i, JsNum.finite l1, JsNum.finite a1, y1,
           alt1, reg1, none, none, none⟩ s0.drones } : SysState) =
      { s0 with
        frozen := setKey s0.frozen i ⟨JsNum.finite l1, JsNum.finite a1, y1⟩,
        drones := addOrUpdateDrone t2 ⟨i, JsNum.finite l1, JsNum.finite a1, y1,
            alt2, reg2, none, none, none⟩
          (addOrUpdateDrone t1 ⟨i, JsNum.finite l1, JsNum.finite a1, y1,
            alt1, reg1, none, none, none⟩ s0.drones) } := by
    rw [processMessage_mkMsg, hi2, if_neg (by simp [hres])]
    simp [getKey_setKey_self]
  rw [h1, h2]
  have hd2 : getKey (addOrUpdateDrone t2 ⟨i, JsNum.finite l1, JsNum.finite a1, y1,
        alt2, reg2, none, none, none⟩
      (addOrUpdateDrone t1 ⟨i, JsNum.finite l1, JsNum.finite a1, y1,
        alt1, reg1, none, none, none⟩ s0.drones)) i =
      some ⟨i, JsNum.finite l1, JsNum.finite a1, y1, alt2, reg2, none, none, none,
        [(JsNum.finite l1, JsNum.finite a1), (JsNum.finite l1, JsNum.finite a1)],
        if t1 = 0 then t2 else t1⟩ := by
    rw [addOrUpdateDrone_getKey_self']
    simp [hd1]
  exact ⟨_, hd2, rfl, rfl, rfl, rfl, rfl, rfl⟩

/-- C1: for a restricted identifier first observed now, two accepted
events with different (lon, lat, yaw) yield a record whose position
and yaw are the first event's values (those captured in the
FreezeLock), with the first position repeated twice as the path. -/
theorem C1_freeze_two_events (reg : Option Str) (t1 t2 : Nat)
    (l1 a1 l2 a2 : ℚ) (y1 y2 : JsNum) (alt1 alt2 : Option JsNum) (s0 : SysState)
    (hres : isAllowedStr (resolveId reg) = false)
    (hlock : getKey s0.frozen (resolveId reg) = none)
    (hdr : getKey s0.drones (resolveId reg) = none)
    (hdiff : (l1, a1, y1) ≠ (l2, a2, y2)) :
    ∃ v, getKey (processMessage t2 (mkMsg reg (JsNum.finite l2) (JsNum.finite a2)
          (some y2) alt2)
        (processMessage t1 (mkMsg reg (JsNum.finite l1) (JsNum.finite a1)
          (some y1) alt1) s0)).drones (resolveId reg) = some v ∧
      v.lon = JsNum.finite l1 ∧ v.lat = JsNum.finite a1 ∧ v.yaw = y1 ∧
      v.path = [(JsNum.finite l1, JsNum.finite a1),
                (JsNum.finite l1, JsNum.finite a1)] := by
  obtain ⟨v, hv, hid, hlon, hlat, hyaw, halt, hpath⟩ :=
    restricted_fresh_two_events reg reg (resolveId reg) rfl rfl hres t1 t2
      l1 a1 l2 a2 y1 y2 alt1 alt2 s0 hlock hdr
  exact ⟨v, hv, hlon, hlat, hyaw, hpath⟩

/-- C1 witness: spec Scenario B at concrete values. -/
theorem C1_freeze_two_events_witness :
    ∃ v, getKey (processMessage 2 (mkMsg (some sda02) (JsNum.finite 99) (JsNum.finite 99)
          (some (JsNum.finite 1)) none)
        (processMessage 1 (mkMsg (some sda02) (JsNum.finite 10) (JsNum.finite 20)
          (some (JsNum.finite 45)) none) initState)).drones (resolveId (some sda02)) = some v ∧
      v.lon = JsNum.finite 10 ∧ v.lat = JsNum.finite 20 ∧ v.yaw = JsNum.finite 45 ∧
      v.path = [(JsNum.finite 10, JsNum.finite 20),
                (JsNum.finite 10, JsNum.finite 20)] :=
  C1_freeze_two_events (some sda02) 1 2 10 20 99 99 (JsNum.finite 45) (JsNum.finite 1)
    none none initState (by decide) rfl rfl (by decide)

/-- C2 counterexample: after an event that set altitude to 120, an
event whose properties omit altitude ERASES the stored value — the
handler always passes the `altitude` key (possibly undefined) and the
JS spread overwrites with it — refuting the claim that the previously
known value is left unchanged. -/
theorem C2_counterexample :
    ((getKey (processMessage 1 (mkMsg (some sdb01) (JsNum.finite 1) (JsNum.finite 2)
        none (some (JsNum.finite 120))) initState).drones sdb01).map
      VehicleState.altitude) = some (some (JsNum.finite 120)) ∧
    ((getKey (processMessage 2 (mkMsg (some sdb01) (JsNum.finite 1) (JsNum.finite 2)
          none none)
        (processMessage 1 (mkMsg (some sdb01) (JsNum.finite 1) (JsNum.finite 2)
          none (some (JsNum.finite 120))) initState)).drones sdb01).map
      VehicleState.altitude) = some none := by
  constructor <;> decide

/-- C2 amended: the metadata merge is a full overwrite of the event's
fields. An accepted event carrying an altitude stores it, and an
accepted event omitting altitude (present-but-undefined in the
handler's droneData) erases any previously stored altitude, leaving
the field absent. -/
theorem C2_amended_full_overwrite (now : Nat) (reg : Option Str) (l a : ℚ)
    (yv : Option JsNum) (st : SysState) (altN : JsNum) :
    ((getKey (processMessage now (mkMsg reg (JsNum.finite l) (JsNum.finite a) yv
        none) st).drones (resolveId reg)).map VehicleState.altitude) = some none ∧
    ((getKey (processMessage now (mkMsg reg (JsNum.finite l) (JsNum.finite a) yv
        (some altN)) st).drones (resolveId reg)).map VehicleState.altitude) =
      some (some altN) := by
  constructor <;>
  · cases h : isAllowedStr (resolveId reg) <;>
      simp [processMessage_mkMsg, h, addOrUpdateDrone_getKey_self']

/-- Each accepted event appends exactly one element to the identifier's
path, preserving all prior elements and their order. -/
theorem pathOf_stepEv (reg : Option Str) (st : SysState) (e : EvIn) :
    ∃ pos, pathOf (stepEv reg st e) (resolveId reg) =
      pathOf st (resolveId reg) ++ [pos] := by
  cases h : isAllowedStr (resolveId reg)
  case false =>
    refine ⟨(((getKey st.frozen (resolveId reg)).getD
        ⟨JsNum.finite e.lon, JsNum.finite e.lat, e.yaw.getD (JsNum.finite 0)⟩).lon,
      ((getKey st.frozen (resolveId reg)).getD
        ⟨JsNum.finite e.lon, JsNum.finite e.lat, e.yaw.getD (JsNum.finite 0)⟩).lat), ?_⟩
    cases hg : getKey st.drones (resolveId reg) <;>
      simp [stepEv, processMessage_mkMsg, h, pathOf, addOrUpdateDrone_getKey_self', hg]
  case true =>
    refine ⟨(JsNum.finite e.lon, JsNum.finite e.lat), ?_⟩
    cases hg : getKey st.drones (resolveId reg) <;>
      simp [stepEv, processMessage_mkMsg, h, pathOf, addOrUpdateDrone_getKey_self', hg]

/-- Path length grows by exactly one per accepted event. -/
theorem runEvents_path_length (reg : Option Str) (evs : List EvIn) (st : SysState) :
    (pathOf (runEvents reg evs st) (resolveId reg)).length =
      (pathOf st (resolveId reg)).length + evs.length := by
  induction evs generalizing st with
  | nil => simp [runEvents]
  | cons e rest ih =>
      obtain ⟨pos, hpos⟩ := pathOf_stepEv reg st e
      have hrun : runEvents reg (e :: rest) st = runEvents reg rest (stepEv reg st e) := rfl
      rw [hrun, ih, hpos]
      simp
      omega

/-- C3: every accepted event appends exactly one element to the path
(no truncation, deduplication or reordering of prior elements), so a
sequence of N accepted events for one identifier, starting from no
record, yields a path of exactly N elements in arrival order. -/
theorem C3_path_growth (reg : Option Str) :
    (∀ st e, ∃ pos, pathOf (stepEv reg st e) (resolveId reg) =
        pathOf st (resolveId reg) ++ [pos]) ∧
    (∀ evs st, (pathOf (runEvents reg evs st) (resolveId reg)).length =
        (pathOf st (resolveId reg)).length + evs.length) ∧
    (∀ evs st, getKey st.drones (resolveId reg) = none →
        (pathOf (runEvents reg evs st) (resolveId reg)).length = evs.length) := by
  refine ⟨pathOf_stepEv reg, runEvents_path_length reg, ?_⟩
  intro evs st h0
  rw [runEvents_path_length reg evs st]
  simp [pathOf, h0]

/-- C3 witness: three accepted events from scratch yield a path of
three elements. -/
theorem C3_path_growth_witness :
    (pathOf (runEvents (some sdb01)
      [⟨1, 1, 2, none, none⟩, ⟨2, 3, 4, none, none⟩, ⟨3, 5, 6, none, none⟩]
      initState) (resolveId (some sdb01))).length = 3 :=
  (C3_path_growth (some sdb01)).2.2
    [⟨1, 1, 2, none, none⟩, ⟨2, 3, 4, none, none⟩, ⟨3, 5, 6, none, none⟩]
    initState rfl

/-- Once stored with a nonzero timestamp, `firstSeen` survives any
further accepted events. -/
theorem firstSeen_runEvents (reg : Option Str) (f : Nat) (hf : f ≠ 0)
    (evs : List EvIn) (st : SysState)
    (h : (getKey st.drones (resolveId reg)).map VehicleState.firstSeen = some f) :
    (getKey (runEvents reg evs st).drones (resolveId reg)).map
      VehicleState.firstSeen = some f := by
  induction evs generalizing st with
  | nil => exact h
  | cons e rest ih =>
      have hstep : (getKey (stepEv reg st e).drones (resolveId reg)).map
          VehicleState.firstSeen = some f := by
        obtain ⟨v, hv⟩ : ∃ v, getKey st.drones (resolveId reg) = some v := by
          cases hg : getKey st.drones (resolveId reg)
          · rw [hg] at h; simp at h
          · exact ⟨_, rfl⟩
        rw [hv] at h
        have h2 : v.firstSeen = f := by simpa using h
        cases hA : isAllowedStr (resolveId reg) <;>
          simp [stepEv, processMessage_mkMsg, hA, addOrUpdateDrone_getKey_self',
            hv, h2, hf]
      exact ih _ hstep

/-- C7: `firstSeen` is stamped at the first reconciliation of an
identifier (with the then-current, necessarily positive, clock value)
and is never overwritten by any later reconciliation, regardless of
freeze state. -/
theorem C7_firstSeen_stable (reg : Option Str) (t1 : Nat) (ht1 : 0 < t1)
    (l1 a1 : ℚ) (y1 alt1 : Option JsNum) (s0 : SysState)
    (hdr : getKey s0.drones (resolveId reg) = none) (evs : List EvIn) :
    ((getKey (processMessage t1 (mkMsg reg (JsNum.finite l1) (JsNum.finite a1)
        y1 alt1) s0).drones (resolveId reg)).map VehicleState.firstSeen = some t1) ∧
    ((getKey (runEvents reg evs (processMessage t1 (mkMsg reg (JsNum.finite l1)
        (JsNum.finite a1) y1 alt1) s0)).drones (resolveId reg)).map
      VehicleState.firstSeen = some t1) := by
  have h1 : (getKey (processMessage t1 (mkMsg reg (JsNum.finite l1) (JsNum.finite a1)
      y1 alt1) s0).drones (resolveId reg)).map VehicleState.firstSeen = some t1 := by
    cases hA : isAllowedStr (resolveId reg) <;>
      simp [processMessage_mkMsg, hA, addOrUpdateDrone_getKey_self', hdr]
  exact ⟨h1, firstSeen_runEvents reg t1 (by omega) evs _ h1⟩

/-- C7 witness: two reconciliations at times 100 and 200 keep
`firstSeen` at 100. -/
theorem C7_firstSeen_stable_witness :
    ((getKey (processMessage 100 (mkMsg (some sdb01) (JsNum.finite 1) (JsNum.finite 2)
        none none) initState).drones (resolveId (some sdb01))).map
      VehicleState.firstSeen = some 100) ∧
    ((getKey (runEvents (some sdb01) [⟨200, 3, 4, none, none⟩]
        (processMessage 100 (mkMsg (some sdb01) (JsNum.finite 1) (JsNum.finite 2)
          none none) initState)).drones (resolveId (some sdb01))).map
      VehicleState.firstSeen = some 100) :=
  C7_firstSeen_stable (some sdb01) 100 (by decide) 1 2 none none initState rfl
    [⟨200, 3, 4, none, none⟩]

/-- Every handler invocation either drops the message, or writes
exactly one record through `addOrUpdateDrone` and some freeze map —
never touching the selection cursor. -/
theorem processMessage_shape (now : Nat) (fc : Msg) (st : SysState) :
    processMessage now fc st = st ∨
    ∃ d : DroneData, ∃ fz : List (Str × Lock),
      processMessage now fc st =
        { frozen := fz, drones := addOrUpdateDrone now d st.drones,
          selectedDroneId := st.selectedDroneId } := by
  obtain ⟨features⟩ := fc
  cases features with
  | nil => exact Or.inl rfl
  | cons feat rest =>
    obtain ⟨geo, props⟩ := feat
    cases geo with
    | none => exact Or.inl rfl
    | some g =>
      obtain ⟨gt, coords⟩ := g
      by_cases ht : gt = pointLit
      · subst ht
        cases h0 : (coords.getD [])[0]? with
        | none => exact Or.inl (by unfold processMessage; simp [List.head?_cons, h0])
        | some lon =>
          cases h1 : (coords.getD [])[1]? with
          | none => exact Or.inl (by unfold processMessage; simp [List.head?_cons, h0, h1])
          | some lat =>
            by_cases hlon : jsFinite lon = true
            case neg =>
              exact Or.inl (by unfold processMessage; simp [List.head?_cons, h0, h1, hlon])
            by_cases hlat : jsFinite lat = true
            case neg =>
              exact Or.inl (by unfold processMessage; simp [List.head?_cons, h0, h1, hlon, hlat])
            by_cases hA : isAllowedStr (resolveId (props.getD emptyProps).registration) = true
            case pos =>
              refine Or.inr ⟨⟨resolveId (props.getD emptyProps).registration, lon, lat,
                (props.getD emptyProps).yaw.getD (JsNum.finite 0),
                (props.getD emptyProps).altitude, (props.getD emptyProps).registration,
                (props.getD emptyProps).Name, (props.getD emptyProps).pilot,
                (props.getD emptyProps).organization⟩,
                delKey st.frozen (resolveId (props.getD emptyProps).registration), ?_⟩
              unfold processMessage
              simp [List.head?_cons, h0, h1, hlon, hlat, hA]
            case neg =>
              refine Or.inr ⟨⟨resolveId (props.getD emptyProps).registration,
                ((getKey st.frozen (resolveId (props.getD emptyProps).registration)).getD
                  ⟨lon, lat, (props.getD emptyProps).yaw.getD (JsNum.finite 0)⟩).lon,
                ((getKey st.frozen (resolveId (props.getD emptyProps).registration)).getD
                  ⟨lon, lat, (props.getD emptyProps).yaw.getD (JsNum.finite 0)⟩).lat,
                ((getKey st.frozen (resolveId (props.getD emptyProps).registration)).getD
                  ⟨lon, lat, (props.getD emptyProps).yaw.getD (JsNum.finite 0)⟩).yaw,
                (props.getD emptyProps).altitude, (props.getD emptyProps).registration,
                (props.getD emptyProps).Name, (props.getD emptyProps).pilot,
                (props.getD emptyProps).organization⟩,
                (if (getKey st.frozen (resolveId (props.getD emptyProps).registration)).isSome
                 then st.frozen
                 else setKey st.frozen (resolveId (props.getD emptyProps).registration)
                   ⟨lon, lat, (props.getD emptyProps).yaw.getD (JsNum.finite 0)⟩), ?_⟩
              unfold processMessage
              simp [List.head?_cons, h0, h1, hlon, hlat, hA]
      · exact Or.inl (by unfold processMessage; simp [List.head?_cons, ht])

/-- The handler never changes the selection cursor. -/
theorem processMessage_selectedDroneId (now : Nat) (fc : Msg) (st : SysState) :
    (processMessage now fc st).selectedDroneId = st.selectedDroneId := by
  rcases processMessage_shape now fc st with h | ⟨d, fz, h⟩ <;> rw [h]

/-- C8: reconciling any message leaves the selection cursor unchanged,
reconciling an accepted event leaves every other identifier's record
unchanged, and `setSelectedDrone` changes only the cursor, leaving the
whole drone map unchanged. -/
theorem C8_frame (now : Nat) (fc : Msg) (st : SysState) (reg : Option Str)
    (l a : ℚ) (yv alt : Option JsNum) (k : Str) (hk : k ≠ resolveId reg)
    (o : Option Str) :
    (processMessage now fc st).selectedDroneId = st.selectedDroneId ∧
    getKey (processMessage now (mkMsg reg (JsNum.finite l) (JsNum.finite a)
        yv alt) st).drones k = getKey st.drones k ∧
    (setSelectedDrone o st).drones = st.drones ∧
    (setSelectedDrone o st).selectedDroneId = o := by
  refine ⟨processMessage_selectedDroneId now fc st, ?_, rfl, rfl⟩
  rw [processMessage_mkMsg]
  cases hA : isAllowedStr (resolveId reg)
  · rw [if_neg (by simp)]
    exact addOrUpdateDrone_getKey_ne' now (resolveId reg) _ _ _ _ _ _ _ _
      st.drones k hk
  · rw [if_pos rfl]
    exact addOrUpdateDrone_getKey_ne' now (resolveId reg) _ _ _ _ _ _ _ _
      st.drones k hk

/-- C8 witness: concrete frame check for two distinct identifiers. -/
theorem C8_frame_witness :
    (processMessage 1 badMsg initState).selectedDroneId = initState.selectedDroneId ∧
    getKey (processMessage 1 (mkMsg (some sdb01) (JsNum.finite 1) (JsNum.finite 2)
        none none) initState).drones sda02 = getKey initState.drones sda02 ∧
    (setSelectedDrone (some sdb01) initState).drones = initState.drones ∧
    (setSelectedDrone (some sdb01) initState).selectedDroneId = some sdb01 :=
  C8_frame 1 badMsg initState (some sdb01) 1 2 none none sda02 (by decide) (some sdb01)

/-- C9: a message whose registration is absent or empty is keyed under
the sentinel `"SD-UNK"`, the sentinel is classified restricted, and
two such events merge into a single record frozen at the first
event's position. -/
theorem C9_sentinel_merge (reg1 reg2 : Option Str)
    (h1 : falsyReg reg1) (h2 : falsyReg reg2)
    (t1 t2 : Nat) (l1 a1 l2 a2 : ℚ) (y1 y2 : JsNum) (alt1 alt2 : Option JsNum)
    (s0 : SysState) (hlock : getKey s0.frozen unkId = none)
    (hdr : getKey s0.drones unkId = none) :
    resolveId reg1 = unkId ∧ resolveId reg2 = unkId ∧
    isAllowedStr unkId = false ∧
    ∃ v, getKey (processMessage t2 (mkMsg reg2 (JsNum.finite l2) (JsNum.finite a2)
          (some y2) alt2)
        (processMessage t1 (mkMsg reg1 (JsNum.finite l1) (JsNum.finite a1)
          (some y1) alt1) s0)).drones unkId = some v ∧
      v.id = unkId ∧ v.lon = JsNum.finite l1 ∧ v.lat = JsNum.finite a1 ∧
      v.yaw = y1 ∧
      v.path = [(JsNum.finite l1, JsNum.finite a1),
                (JsNum.finite l1, JsNum.finite a1)] := by
  have hr1 : resolveId reg1 = unkId := by
    rcases h1 with h | h <;> simp [h, resolveId]
  have hr2 : resolveId reg2 = unkId := by
    rcases h2 with h | h <;> simp [h, resolveId]
  refine ⟨hr1, hr2, by decide, ?_⟩
  obtain ⟨v, hv, hid, hlon, hlat, hyaw, halt, hpath⟩ :=
    restricted_fresh_two_events reg1 reg2 unkId hr1 hr2 (by decide) t1 t2
      l1 a1 l2 a2 y1 y2 alt1 alt2 s0 hlock hdr
  exact ⟨v, hv, hid, hlon, hlat, hyaw, hpath⟩

/-- C9 witness: one absent and one empty registration, merged under
the sentinel. -/
theorem C9_sentinel_merge_witness :
    resolveId (none : Option Str) = unkId ∧ resolveId (some ([] : Str)) = unkId ∧
    isAllowedStr unkId = false ∧
    ∃ v, getKey (processMessage 2 (mkMsg (some ([] : Str)) (JsNum.finite 9)
          (JsNum.finite 9) (some (JsNum.finite 1)) none)
        (processMessage 1 (mkMsg none (JsNum.finite 5) (JsNum.finite 6)
          (some (JsNum.finite 7)) none) initState)).drones unkId = some v ∧
      v.id = unkId ∧ v.lon = JsNum.finite 5 ∧ v.lat = JsNum.finite 6 ∧
      v.yaw = JsNum.finite 7 ∧
      v.path = [(JsNum.finite 5, JsNum.finite 6),
                (JsNum.finite 5, JsNum.finite 6)] :=
  C9_sentinel_merge none (some []) (Or.inl rfl) (Or.inr rfl) 1 2 5 6 9 9
    (JsNum.finite 7) (JsNum.finite 1) none none initState rfl rfl

/-- Key/id agreement holds in every reachable state. -/
theorem reachable_id_inv (s : SysState) (hs : Reachable s) :
    ∀ k v, getKey s.drones k = some v → v.id = k := by
  induction hs with
  | init =>
      intro k v h
      simp [initState, getKey] at h
  | msg now fc s1 hs1 ih =>
      intro k v h
      rcases processMessage_shape now fc s1 with hd | ⟨d, fz, hd⟩
      · rw [hd] at h
        exact ih k v h
      · rw [hd] at h
        simp only [addOrUpdateDrone] at h
        rcases getKey_setKey_cases _ _ _ _ _ h with ⟨hk1, hv⟩ | h2
        · subst hk1
          rw [hv]
        · exact ih k v h2
  | select o s1 hs1 ih =>
      intro k v h
      exact ih k v h

/-- C10: in every reachable state, each stored record's `id` field
equals the key under which it is stored; no reconciliation stores a
record under a different key or reassigns an existing record's id. -/
theorem C10_id_equals_key (s : SysState) (hs : Reachable s) (k : Str)
    (v : VehicleState) (hk : getKey s.drones k = some v) : v.id = k :=
  reachable_id_inv s hs k v hk

/-- C10 witness: the record stored by one admitted event carries its
key as id. -/
theorem C10_id_equals_key_witness : c10Record.id = sdb01 :=
  C10_id_equals_key c10State
    (Reachable.msg 5 (mkMsg (some sdb01) (JsNum.finite 3) (JsNum.finite 4) none none)
      initState Reachable.init)
    sdb01 c10Record (by decide)
